import Mathlib

/-!
Verification of the shot-data extraction backend (src/api.py).

The development shallowly embeds the pieces of api.py that the specification
talks about:

* the JSON value model and a model of Python's `json.loads` (a fuel-based
  recursive-descent parser over `List Char`);
* the regex extraction step `re.search(r'\x7b.*\x7d', text, re.DOTALL)` used by
  both provider adapters (`extractBraced`);
* the provider adapters and `AIProcessor.process_image` (network effects are
  parameters: whether a key is configured and what the remote service answered;
  the list of performed network calls, with the timeout passed to each, is
  returned alongside the result);
* the rate-limit decorator's redis counter handling (`redis_client.get` and
  `redis_client.incr` as separate primitives, exactly as in the source), its
  datetime arithmetic for the reported reset time, and the decorator's
  response post-processing;
* the `DataStore` JSON-file ledger (`save_shot`, `get_user_shots`), with the
  file system as an explicit map from user id to parsed file contents;
* the `/extract` request handler `extract_shot_data`, with fallible file
  writes made explicit (`writeOk`): a failing write raises and is caught by
  the handler's catch-all `except`, which returns a bare 500 error.

Machine reals (`time.time()` durations, `2.0` second timeouts) are modelled as
exact rationals; the concrete values in the source are exactly representable.
-/

/-- JSON documents as produced by Python's `json.loads`. Numbers are modelled
as exact rationals (`150.2` is the rational 1502/10; the source's concrete
documents only carry small decimal literals, which floats represent exactly). -/
inductive Json where
  | null
  | bool (b : Bool)
  | num (q : ℚ)
  | str (s : String)
  | arr (xs : List Json)
  | obj (kvs : List (String × Json))
deriving Repr

/-- The character `\x7b`, written via its code point. -/
def braceOpen : Char := Char.ofNat 123

/-- The character `\x7d`, written via its code point. -/
def braceClose : Char := Char.ofNat 125

/-- The double-quote character. -/
def quoteC : Char := Char.ofNat 34

/-- JSON whitespace skipping, as `json.loads` does between tokens. -/
def skipWs : List Char → List Char
  | [] => []
  | c :: cs => if c = ' ' ∨ c = '\n' ∨ c = '\t' ∨ c = '\r' then skipWs cs else c :: cs

/-- Scan a string body up to the closing quote. Escape sequences are not
modelled: no document appearing in this development contains a backslash. -/
def scanStringBody : List Char → Option (List Char × List Char)
  | [] => none
  | c :: cs =>
    if c = quoteC then some ([], cs)
    else (scanStringBody cs).map (fun p => (c :: p.1, p.2))

/-- Parse a JSON string literal (leading quote expected). -/
def parseStringLit : List Char → Option (String × List Char)
  | [] => none
  | c :: cs =>
    if c = quoteC then (scanStringBody cs).map (fun p => (String.mk p.1, p.2))
    else none

/-- Decimal digits to a natural number. -/
def digitsToNat (ds : List Char) : Nat :=
  ds.foldl (fun a c => a * 10 + (c.toNat - 48)) 0

/-- Parse an unsigned JSON number: integer part and optional fraction part.
Exponent forms are not modelled; no document in this development uses them. -/
def parseUnsigned (cs : List Char) : Option (ℚ × List Char) :=
  let ds := cs.takeWhile Char.isDigit
  let cs2 := cs.dropWhile Char.isDigit
  if ds.isEmpty then none
  else
    match cs2 with
    | '.' :: t =>
      let fr := t.takeWhile Char.isDigit
      if fr.isEmpty then none
      else some ((digitsToNat ds : ℚ) + (digitsToNat fr : ℚ) / ((10 : ℚ) ^ fr.length),
                 t.dropWhile Char.isDigit)
    | _ => some ((digitsToNat ds : ℚ), cs2)

/-- Parse a JSON number with optional minus sign. -/
def parseNumber (cs : List Char) : Option (ℚ × List Char) :=
  match cs with
  | '-' :: t => (parseUnsigned t).map (fun p => (-p.1, p.2))
  | _ => parseUnsigned cs

/-- Python dict assignment `d[k] = v`: replace the value at an existing key in
place, else append the new key at the end (insertion order is preserved). -/
def objInsert (kvs : List (String × Json)) (k : String) (v : Json) : List (String × Json) :=
  match kvs with
  | [] => [(k, v)]
  | (k2, v2) :: t => if k2 = k then (k, v) :: t else (k2, v2) :: objInsert t k v

mutual

/-- Parse one JSON value. The fuel argument only bounds recursion depth;
`jsonLoads` supplies enough fuel for any input it is called on. -/
def parseValue : Nat → List Char → Option (Json × List Char)
  | 0, _ => none
  | fuel + 1, cs =>
    match skipWs cs with
    | [] => none
    | c :: t =>
      if c = braceOpen then
        match skipWs t with
        | d :: t2 => if d = braceClose then some (.obj [], t2) else parseMembers fuel (d :: t2) []
        | [] => none
      else if c = '[' then
        match skipWs t with
        | d :: t2 => if d = ']' then some (.arr [], t2) else parseItems fuel (d :: t2) []
        | [] => none
      else if c = quoteC then
        (parseStringLit (c :: t)).map (fun p => (Json.str p.1, p.2))
      else if c = 'n' then
        match t with
        | 'u' :: 'l' :: 'l' :: r => some (.null, r)
        | _ => none
      else if c = 't' then
        match t with
        | 'r' :: 'u' :: 'e' :: r => some (.bool true, r)
        | _ => none
      else if c = 'f' then
        match t with
        | 'a' :: 'l' :: 's' :: 'e' :: r => some (.bool false, r)
        | _ => none
      else
        (parseNumber (c :: t)).map (fun p => (Json.num p.1, p.2))

/-- Parse the members of an object after its opening brace (nonempty case). -/
def parseMembers : Nat → List Char → List (String × Json) → Option (Json × List Char)
  | 0, _, _ => none
  | fuel + 1, cs, acc =>
    match parseStringLit (skipWs cs) with
    | none => none
    | some (k, r1) =>
      match skipWs r1 with
      | ':' :: r2 =>
        match parseValue fuel r2 with
        | none => none
        | some (v, r3) =>
          match skipWs r3 with
          | ',' :: r4 => parseMembers fuel r4 (objInsert acc k v)
          | c :: r4 => if c = braceClose then some (.obj (objInsert acc k v), r4) else none
          | [] => none
      | _ => none

/-- Parse the items of an array after its opening bracket (nonempty case). -/
def parseItems : Nat → List Char → List Json → Option (Json × List Char)
  | 0, _, _ => none
  | fuel + 1, cs, acc =>
    match parseValue fuel cs with
    | none => none
    | some (v, r1) =>
      match skipWs r1 with
      | ',' :: r2 => parseItems fuel r2 (acc ++ [v])
      | c :: r2 => if c = ']' then some (.arr (acc ++ [v]), r2) else none
      | [] => none

end

/-- Model of Python's `json.loads`: parse one value and require that nothing
but whitespace remains (otherwise `json.loads` raises, which the source's
`except` clauses turn into `None`). -/
def jsonLoads (cs : List Char) : Option Json :=
  match parseValue (cs.length + 1) cs with
  | some (j, rest) => if (skipWs rest).isEmpty then some j else none
  | none => none

/-- Python truthiness of a parsed JSON value (`if result:` in the source):
`None`-like, empty and zero values are falsy. -/
def truthyJson : Json → Bool
  | .null => false
  | .bool b => b
  | .num q => decide (q ≠ 0)
  | .str s => !s.isEmpty
  | .arr xs => !xs.isEmpty
  | .obj kvs => !kvs.isEmpty

/-- Python truthiness of an `Optional` value: `None` is falsy. -/
def truthyOpt : Option Json → Bool
  | none => false
  | some j => truthyJson j

/-- Model of `re.search(r'\x7b.*\x7d', text, re.DOTALL)` followed by
`.group()`: the leftmost-longest match of that pattern is the substring
running from the first `\x7b` of the text to the last `\x7d` (the dot matches
newlines under DOTALL and `.*` is greedy); `none` when no such span exists. -/
def extractBraced (cs : List Char) : Option (List Char) :=
  let rest := cs.dropWhile (fun c => c != braceOpen)
  let mid := (rest.reverse.dropWhile (fun c => c != braceClose)).reverse
  if mid.isEmpty then none else some mid

/-- Lines 146-149 and 197-200 of src/api.py: regex-extract a braced span from
the provider's text and `json.loads` it; any failure yields `None` (the
enclosing `try` catches the `json.loads` exception). -/
def textToJson (cs : List Char) : Option Json :=
  match extractBraced cs with
  | some sub => jsonLoads sub
  | none => none

/-- The outcome of one `requests.post` round trip to a provider, as seen by
the adapter code after the call: either status 200 with the textual completion
extracted from the reply envelope, or anything else (non-200 status, network
exception, a malformed envelope) — every such case lands in the adapter's
`except`/fall-through and produces `None`. -/
inductive ProviderResponse where
  | ok (text : List Char)
  | err
deriving DecidableEq

/-- `CONFIG['RESPONSE_TIMEOUT'] = 2.0` (seconds), the timeout passed to every
`requests.post` in both adapters. -/
def RESPONSE_TIMEOUT : ℚ := 2

/-- One performed network call: which provider was contacted and the timeout
(seconds) passed to `requests.post` for that call. -/
structure ProviderCall where
  provider : String
  timeout : ℚ
deriving DecidableEq

/-- Common body of `extract_with_gemini` (lines 117-153) and
`extract_with_openai` (lines 155-204): if no API key is configured return
`None` before any network call; otherwise, on a 200 reply, regex-extract a
braced span from the completion text and `json.loads` it; every failure path
returns `None`. The two adapters differ only in URL, payload envelope and key,
none of which affects the extraction logic. -/
def extractWith (key : Bool) (resp : ProviderResponse) : Option Json :=
  if key then
    match resp with
    | .ok text => textToJson text
    | .err => none
  else none

/-- The network calls performed by one adapter invocation: exactly one call,
with the fixed timeout `RESPONSE_TIMEOUT`, when a key is configured
(`requests.post` is reached on every keyed path); no call otherwise. -/
def adapterCalls (key : Bool) (name : String) : List ProviderCall :=
  if key then [⟨name, RESPONSE_TIMEOUT⟩] else []

/-- `AIProcessor.process_image` (lines 206-222): try Gemini first; if its
result is truthy return it with the label `gemini`; otherwise try OpenAI; if
that is truthy return it with the label `openai`; otherwise `(None, "failed")`.
The second component of the result is the full list of network calls
performed, in order. The source's label additionally embeds the elapsed
seconds measured with `time.time()` (e.g. `"gemini (0.52s)"`); the elapsed
time is used for nothing but that label text and is not modelled. -/
def processImage (gKey oKey : Bool) (gResp oResp : ProviderResponse) :
    (Option Json × String) × List ProviderCall :=
  let g := extractWith gKey gResp
  let gTrace := adapterCalls gKey "gemini"
  if truthyOpt g then ((g, "gemini"), gTrace)
  else
    let o := extractWith oKey oResp
    let oTrace := gTrace ++ adapterCalls oKey "openai"
    if truthyOpt o then ((o, "openai"), oTrace) else ((none, "failed"), oTrace)

/-- A Python `datetime` value, abstracted to a day index plus time-of-day
fields. `timedelta(days=1)` is day index + 1; `replace` acts fieldwise. The
source builds these from `datetime.now()`, the server's local clock. -/
structure PyDateTime where
  day : Nat
  hour : Nat
  minute : Nat
  second : Nat
  microsecond : Nat
deriving DecidableEq, Repr

/-- `now + timedelta(days=1)`. -/
def addOneDay (d : PyDateTime) : PyDateTime := { d with day := d.day + 1 }

/-- `.replace(hour=0, minute=0, second=0)` — note that `replace` only changes
the fields it is given: the microsecond field is left as it was. -/
def replaceHMSZero (d : PyDateTime) : PyDateTime :=
  { d with hour := 0, minute := 0, second := 0 }

/-- Line 87-89 of src/api.py: the reset time reported on denial,
`(datetime.now() + timedelta(days=1)).replace(hour=0, minute=0, second=0)`. -/
def resetTime (now : PyDateTime) : PyDateTime := replaceHMSZero (addOneDay now)

/-- Modelled from the spec: "`Denied` reports the next reset instant as UTC
midnight following the current moment" — the instant with every time-of-day
field zero on the following day. Stated for comparison with `resetTime`, the
quantity the source actually reports. -/
def nextUtcMidnight (now : PyDateTime) : PyDateTime :=
  ⟨now.day + 1, 0, 0, 0, 0⟩

/-- Line 77-81: `redis_client.get(key)` followed by the `None`-to-0
conversion. -/
def redisGetCount (st : Option Nat) : Nat := st.getD 0

/-- Line 93: `redis_client.incr(key)` — an atomic increment of the stored
counter (absent counts as 0). -/
def redisIncr (st : Option Nat) : Option Nat := some (st.getD 0 + 1)

/-- Outcome of one quota check, at the QuotaTracker abstraction of the spec:
either allowed, with the `used`/`remaining` numbers the decorator computes at
lines 101-105, or denied, with the limit and reported reset time of the 429
body (lines 84-90). -/
inductive RLOutcome where
  | allowed (used remaining : Nat)
  | denied (limit : Nat) (reset : PyDateTime)
deriving DecidableEq, Repr

/-- One sequential execution of the counter logic of the `rate_limit`
decorator (lines 76-94) for a fixed (identity, day) key: read the count
(line 77), deny when it reached the limit (line 83), otherwise increment
(line 93). `used = current + 1` and `remaining = limit - (current + 1)` are
the numbers of lines 101-105. -/
def checkAndIncrement (limit : Nat) (now : PyDateTime) (st : Option Nat) :
    RLOutcome × Option Nat :=
  let current := redisGetCount st
  if limit ≤ current then (.denied limit (resetTime now), st)
  else (.allowed (current + 1) (limit - (current + 1)), redisIncr st)

/-- A sequence of `n` sequential `checkAndIncrement` calls against the same
key within the same day, returning the outcomes in order. -/
def runCalls : Nat → Nat → PyDateTime → Option Nat → List RLOutcome
  | 0, _, _, _ => []
  | n + 1, limit, now, st =>
    let r := checkAndIncrement limit now st
    r.1 :: runCalls n limit now r.2

/-- Two concurrent executions A and B of the decorator's counter logic on the
same key, interleaved as GET(A), GET(B), INCR(A), INCR(B). Each client runs
exactly the source's two separate redis commands: the read of line 77 and the
increment of line 93 (the increment is skipped on the denial path, which
returns at line 90 before reaching it). Returns (A allowed, B allowed, final
counter). -/
def raceGetGetIncrIncr (limit : Nat) (st : Option Nat) : Bool × Bool × Option Nat :=
  let a := redisGetCount st
  let b := redisGetCount st
  let st1 := if a < limit then redisIncr st else st
  let st2 := if b < limit then redisIncr st1 else st1
  (decide (a < limit), decide (b < limit), st2)

/-- A Flask view return value: either a bare `jsonify(...)` response object or
a `(jsonify(...), status)` tuple. The body is the JSON object handed to
`jsonify`. -/
inductive FlaskResp where
  | bare (body : List (String × Json))
  | withStatus (body : List (String × Json)) (status : Nat)
deriving Repr

/-- Whether the view returned a `(body, status)` tuple (`isinstance(response,
tuple)` at line 98). -/
def FlaskResp.isTuple : FlaskResp → Bool
  | .bare _ => false
  | .withStatus _ _ => true

/-- The JSON body of a response. -/
def bodyOf : FlaskResp → List (String × Json)
  | .bare b => b
  | .withStatus b _ => b

/-- Whether the response body carries a `rate_limit` field. -/
def hasRateLimit (r : FlaskResp) : Bool :=
  (bodyOf r).any (fun kv => kv.1 == "rate_limit")

/-- Lines 101-105: the `rate_limit` object merged into tuple responses. -/
def rlInfoJson (used limit : Nat) : Json :=
  .obj [("used", .num used), ("limit", .num limit),
        ("remaining", .num ((limit : ℚ) - (used : ℚ)))]

/-- A simplified rendering of `datetime.isoformat()` over the abstract
datetime representation; only used as an uninterpreted string inside the 429
body, never inspected. -/
def isoStr (d : PyDateTime) : String :=
  toString d.day ++ "T" ++ toString d.hour ++ ":" ++ toString d.minute ++ ":"
    ++ toString d.second ++ "." ++ toString d.microsecond

/-- Lines 84-90: the 429 denial body. -/
def deniedBody (limit : Nat) (now : PyDateTime) : List (String × Json) :=
  [("error", .str "Daily limit exceeded"), ("limit", .num limit),
   ("reset_time", .str (isoStr (resetTime now)))]

/-- Lines 96-107: the decorator's response post-processing. A tuple response
has the `rate_limit` object merged into its body and is re-emitted with the
same status; a bare response is returned unchanged. -/
def rlMerge (r : FlaskResp) (current limit : Nat) : FlaskResp :=
  match r with
  | .bare b => .bare b
  | .withStatus b s => .withStatus (objInsert b "rate_limit" (rlInfoJson (current + 1) limit)) s

/-- The full `rate_limit` decorator (lines 61-109) around a handler, for one
request: read the counter; if at the limit, return the 429 body with the
counter and the handler's state untouched; otherwise increment the counter
first, then run the handler (which may carry its own state `σ`, e.g. the
ledger file store), then post-process its response. The handler receives the
counter state as it stands when it runs, i.e. already incremented. -/
def rateLimitRun {σ : Type} (limit : Nat) (now : PyDateTime) (st : Option Nat)
    (s0 : σ) (handler : Option Nat → FlaskResp × σ) : FlaskResp × Option Nat × σ :=
  let current := redisGetCount st
  if limit ≤ current then (.withStatus (deniedBody limit now) 429, st, s0)
  else
    let st2 := redisIncr st
    let hr := handler st2
    (rlMerge hr.1 current limit, st2, hr.2)

/-- One record of a user's ledger file, as written by `save_shot`
(lines 236-241). -/
structure ShotRecord where
  id : String
  user_id : String
  timestamp : String
  data : Json
deriving Repr

/-- The ledger file system: each user id maps to the parsed contents of
`data/user_<id>.json` (the `shots` list), or `none` when the file does not
exist or cannot be read — both of which the source's `except` clauses treat
as an empty ledger. -/
def Store : Type := String → Option (List ShotRecord)

/-- The file system with no ledger files. -/
def emptyStore : Store := fun _ => none

/-- Lines 232-234: the record id, `md5(user_id + now.isoformat())[:12]`. The
digest itself is modelled as an uninterpreted injection of its input; nothing
in this development depends on its value. -/
def shotId (uid ts : String) : String := uid ++ "|" ++ ts

/-- `DataStore.save_shot` (lines 230-257): build the record, read the user's
file (missing or unreadable file defaults to an empty `shots` list), append
the record and write the file back. Returns the new id and the updated file
system. -/
def saveShot (uid : String) (shotData : Json) (ts : String) (fs : Store) :
    String × Store :=
  let sid := shotId uid ts
  let record0 : ShotRecord := ⟨sid, uid, ts, shotData⟩
  let shots := (fs uid).getD []
  (sid, fun u => if u = uid then some (shots ++ [record0]) else fs u)

/-- `DataStore.get_user_shots` (lines 259-268): read the user's file and
return its `shots` list; a missing or unreadable file yields `[]`. -/
def getUserShots (uid : String) (fs : Store) : List ShotRecord :=
  (fs uid).getD []

/-- The success body built at lines 365-371 of `extract_shot_data`. -/
def successBody (sid : Json) (d : Json) (processor : String) (saved : Bool) :
    List (String × Json) :=
  [("success", .bool true), ("shot_id", sid), ("data", d),
   ("processor", .str processor), ("saved", .bool saved)]

/-- The `/extract` handler `extract_shot_data` (lines 339-374), as wrapped in
its `try`/`except`. Request-layer facts are parameters: whether the multipart
field `image` is present, whether its filename is empty, the provider keys and
responses, the authenticated user id (if any), and whether the ledger file
write succeeds (`writeOk = false` models an `open`/`write` `OSError`, which
propagates to the catch-all `except` at line 373 and produces the bare 500
error body `{'error': str(e)}`, here a fixed placeholder string). Returns the
response and the resulting file system. -/
def extractShotData (hasImage filenameEmpty : Bool) (gKey oKey : Bool)
    (gResp oResp : ProviderResponse) (userId : Option String) (writeOk : Bool)
    (ts : String) (fs : Store) : FlaskResp × Store :=
  if !hasImage then (.withStatus [("error", .str "No image provided")] 400, fs)
  else if filenameEmpty then (.withStatus [("error", .str "No image selected")] 400, fs)
  else
    let pr := processImage gKey oKey gResp oResp
    match pr.1.1 with
    | none => (.withStatus [("error", .str "Failed to extract data from image")] 422, fs)
    | some d =>
      if !truthyJson d then
        (.withStatus [("error", .str "Failed to extract data from image")] 422, fs)
      else
        match userId with
        | none => (.bare (successBody .null d pr.1.2 false), fs)
        | some uid =>
          if writeOk then
            let r := saveShot uid d ts fs
            (.bare (successBody (.str r.1) d pr.1.2 true), r.2)
          else (.withStatus [("error", .str "storage write failed")] 500, fs)

/-- The `data` field of a response body, when present: the extracted metrics
as the caller receives them. -/
def respData (r : FlaskResp) : Option Json :=
  match (bodyOf r).find? (fun kv => kv.1 == "data") with
  | some kv => some kv.2
  | none => none

/-- The provider text `\x7b"foo": 1\x7d`: a parseable object with a key
outside the seven-key schema. -/
def fooText : List Char :=
  [braceOpen, quoteC, 'f', 'o', 'o', quoteC, ':', ' ', '1', braceClose]

/-- The provider text `\x7b\x7d`: an empty, parseable object. -/
def emptyObjText : List Char := [braceOpen, braceClose]

/-- The provider text `\x7b"ball_speed": 1\x7d`. -/
def ballText : List Char :=
  [braceOpen, quoteC, 'b', 'a', 'l', 'l', '_', 's', 'p', 'e', 'e', 'd', quoteC,
   ':', ' ', '1', braceClose]

/-- The balanced object-literal `\x7b"a": 1\x7d`. -/
def aObjText : List Char :=
  [braceOpen, quoteC, 'a', quoteC, ':', ' ', '1', braceClose]

/-- The trailing text ` and \x7b"b": 2\x7d`. -/
def andBTail : List Char :=
  [' ', 'a', 'n', 'd', ' ', braceOpen, quoteC, 'b', quoteC, ':', ' ', '2', braceClose]

/-- The seven ShotMetrics keys of the spec's fixed schema. -/
def sevenKeys : List String :=
  ["ball_speed", "launch_angle", "spin_rate", "carry_distance", "club_speed",
   "smash_factor", "apex_height"]

/-- The keys of an object document (empty for non-objects). -/
def jsonObjKeys : Json → List String
  | .obj kvs => kvs.map (fun kv => kv.1)
  | _ => []

example : jsonLoads fooText = some (.obj [("foo", .num 1)]) := rfl
example : jsonLoads emptyObjText = some (.obj []) := rfl
example : jsonLoads aObjText = some (.obj [("a", .num 1)]) := rfl
example : extractBraced (aObjText ++ andBTail) = some (aObjText ++ andBTail) := by decide
example : textToJson (aObjText ++ andBTail) = none := rfl
example : textToJson fooText = some (.obj [("foo", .num 1)]) := rfl
example : truthyOpt (jsonLoads emptyObjText) = false := rfl
example : jsonLoads ballText = some (.obj [("ball_speed", .num 1)]) := rfl

/-- `process_image` only returns a document it found truthy: `some d` implies
`truthyJson d`. -/
theorem processImage_some_truthy {gKey oKey : Bool} {gResp oResp : ProviderResponse}
    {j : Json} (h : (processImage gKey oKey gResp oResp).1.1 = some j) :
    truthyJson j = true := by
  unfold processImage at h
  by_cases hg : truthyOpt (extractWith gKey gResp) = true
  · simp [hg] at h
    rw [h] at hg
    simpa [truthyOpt] using hg
  · simp [hg] at h
    by_cases ho : truthyOpt (extractWith oKey oResp) = true
    · simp [ho] at h
      rw [h] at ho
      simpa [truthyOpt] using ho
    · simp [ho] at h

/-- Inserting a key makes it present. -/
theorem objInsert_any_self (b : List (String × Json)) (k : String) (v : Json) :
    (objInsert b k v).any (fun kv => kv.1 == k) = true := by
  induction b with
  | nil => simp [objInsert]
  | cons hd tl ih =>
    obtain ⟨k2, v2⟩ := hd
    by_cases hk : k2 = k
    · simp [objInsert, hk]
    · simp [objInsert, hk, ih]

/-- The first element surviving `dropWhile` falsifies the predicate. -/
theorem dropWhile_head_false {α : Type} {p : α → Bool} {l t : List α} {a : α}
    (h : l.dropWhile p = a :: t) : p a = false := by
  induction l with
  | nil => simp [List.dropWhile] at h
  | cons x xs ih =>
    rw [List.dropWhile_cons] at h
    by_cases hp : p x = true
    · exact ih (by simpa [hp] using h)
    · obtain ⟨rfl, -⟩ : x = a ∧ xs = t := by
        simpa [hp] using h
      simpa using hp

/-- Merging the `rate_limit` object makes it present on tuple responses and
leaves bare responses untouched. -/
theorem hasRateLimit_rlMerge (r : FlaskResp) (cur limit : Nat)
    (hb : (bodyOf r).any (fun kv => kv.1 == "rate_limit") = false) :
    hasRateLimit (rlMerge r cur limit) = r.isTuple := by
  cases r with
  | bare b => simpa [rlMerge, hasRateLimit, FlaskResp.isTuple, bodyOf] using hb
  | withStatus b s =>
    simp [rlMerge, hasRateLimit, FlaskResp.isTuple, bodyOf, objInsert_any_self]

/-- No response body built by `extract_shot_data` contains a `rate_limit`
key: the error bodies carry only `error`, and the success body carries
`success`, `shot_id`, `data`, `processor`, `saved`. -/
theorem extractShotData_no_rl (hasImage filenameEmpty gKey oKey : Bool)
    (gResp oResp : ProviderResponse) (userId : Option String) (writeOk : Bool)
    (ts : String) (fs : Store) :
    (bodyOf (extractShotData hasImage filenameEmpty gKey oKey gResp oResp
        userId writeOk ts fs).1).any (fun kv => kv.1 == "rate_limit") = false := by
  unfold extractShotData
  cases hasImage <;> cases filenameEmpty <;>
    simp only [Bool.not_true, Bool.not_false, if_true, if_false, ite_true, ite_false] <;>
    try (simp [bodyOf]; done)
  all_goals
    cases hpr : (processImage gKey oKey gResp oResp).1.1 with
    | none => simp [bodyOf]
    | some d =>
      cases htr : truthyJson d
      · simp [htr, bodyOf]
      · cases userId with
        | none => simp [htr, bodyOf, successBody]
        | some uid =>
          cases writeOk <;> simp [htr, bodyOf, successBody]

/-- C1 (amended): the check and the increment of the rate-limit decorator are
two separate redis commands — a GET (line 77) and an INCR (line 93) — not one
atomic increment-then-compare primitive; consequently, when exactly one slot
below the limit remains, two concurrent calls whose GETs both precede either
INCR both return Allowed, and the stored counter ends one past the limit. -/
theorem quota_race_both_allowed (limit : Nat) (st : Option Nat)
    (hpos : 0 < limit) (hone : redisGetCount st = limit - 1) :
    raceGetGetIncrIncr limit st = (true, true, some (limit + 1)) := by
  have h0 : st.getD 0 = limit - 1 := hone
  have hlt : limit - 1 < limit := by omega
  have harith : limit - 1 + 1 + 1 = limit + 1 := by omega
  simp [raceGetGetIncrIncr, redisGetCount, redisIncr, h0, hlt, harith]

/-- Witness for `quota_race_both_allowed` at limit 20 with 19 already used. -/
theorem quota_race_both_allowed_witness :
    raceGetGetIncrIncr 20 (some 19) = (true, true, some 21) :=
  quota_race_both_allowed 20 (some 19) (by decide) (by decide)

/-- C1 (counterexample): with limit 20 and 19 already used — exactly one slot
remaining — the GET,GET,INCR,INCR interleaving of two concurrent calls makes
both return Allowed and leaves the counter at 21, above the limit; the claim
that at most one of the two returns Allowed is false of the code. -/
theorem quota_race_counterexample :
    (raceGetGetIncrIncr 20 (some 19)).1 = true
    ∧ (raceGetGetIncrIncr 20 (some 19)).2.1 = true
    ∧ (raceGetGetIncrIncr 20 (some 19)).2.2 = some 21 := by
  refine ⟨rfl, rfl, rfl⟩

/-- C4 (amended): for limit 20, twenty sequential `checkAndIncrement` calls on
a fresh key all return Allowed with `remaining` strictly decreasing 19, 18,
…, 0, and the 21st returns Denied; but the reported reset instant is the
value of `(now + timedelta(days=1)).replace(hour=0, minute=0, second=0)`:
hour, minute and second are zeroed on the following day while the microsecond
of the current moment is preserved — and `now` is the server's local clock
(`datetime.now()`), not UTC. -/
theorem quota_sequence (now : PyDateTime) :
    runCalls 21 20 now none =
      [.allowed 1 19, .allowed 2 18, .allowed 3 17, .allowed 4 16, .allowed 5 15,
       .allowed 6 14, .allowed 7 13, .allowed 8 12, .allowed 9 11, .allowed 10 10,
       .allowed 11 9, .allowed 12 8, .allowed 13 7, .allowed 14 6, .allowed 15 5,
       .allowed 16 4, .allowed 17 3, .allowed 18 2, .allowed 19 1, .allowed 20 0,
       .denied 20 (resetTime now)]
    ∧ resetTime now = ⟨now.day + 1, 0, 0, 0, now.microsecond⟩ := by
  refine ⟨?_, rfl⟩
  simp [runCalls, checkAndIncrement, redisGetCount, redisIncr]

/-- C4 (counterexample): at the moment 12:30:45.123456 of day 7, the 21st call
(counter already at 20) is denied with reported reset 08T00:00:00.123456 —
not the next midnight ⟨8, 0, 0, 0, 0⟩: `replace(hour=0, minute=0, second=0)`
keeps the microsecond field. -/
theorem quota_reset_counterexample :
    (checkAndIncrement 20 ⟨7, 12, 30, 45, 123456⟩ (some 20)).1
        = .denied 20 ⟨8, 0, 0, 0, 123456⟩
    ∧ resetTime ⟨7, 12, 30, 45, 123456⟩ ≠ nextUtcMidnight ⟨7, 12, 30, 45, 123456⟩ :=
  ⟨rfl, by decide⟩

/-- C9: on every admitted request (pre-increment count below the limit) the
decorator increments the counter exactly once, before the handler runs — the
handler observes the incremented state — and the final counter equals that
incremented value whatever response the handler produces (including the 400,
422 and 500 error responses): the counter is never rolled back. -/
theorem quota_increment_before_handler {σ : Type} (limit : Nat)
    (now : PyDateTime) (st : Option Nat) (s0 : σ)
    (handler : Option Nat → FlaskResp × σ) (h : redisGetCount st < limit) :
    (rateLimitRun limit now st s0 handler).2.1 = some (redisGetCount st + 1)
    ∧ (rateLimitRun limit now st s0 handler).1
        = rlMerge (handler (some (redisGetCount st + 1))).1 (redisGetCount st) limit
    ∧ (rateLimitRun limit now st s0 handler).2.2
        = (handler (some (redisGetCount st + 1))).2 := by
  have hn : ¬ limit ≤ st.getD 0 := by
    simpa [redisGetCount] using Nat.not_le.mpr h
  refine ⟨?_, ?_, ?_⟩ <;> simp [rateLimitRun, hn, redisIncr, redisGetCount]

/-- Witness for `quota_increment_before_handler`: a fresh counter, limit 20
and a handler that fails with a 422 still ends with the counter at 1. -/
theorem quota_increment_before_handler_witness :
    (rateLimitRun 20 ⟨0, 0, 0, 0, 0⟩ none ()
        (fun _ => (FlaskResp.withStatus
          [("error", Json.str "Failed to extract data from image")] 422, ()))).2.1
      = some (redisGetCount none + 1) :=
  (quota_increment_before_handler 20 ⟨0, 0, 0, 0, 0⟩ none ()
    (fun _ => (FlaskResp.withStatus
      [("error", Json.str "Failed to extract data from image")] 422, ()))
    (by decide)).1

/-- Every call an adapter performs carries the fixed `RESPONSE_TIMEOUT`. -/
theorem adapterCalls_timeout {c : ProviderCall} {key : Bool} {name : String}
    (h : c ∈ adapterCalls key name) : c.timeout = RESPONSE_TIMEOUT := by
  unfold adapterCalls at h
  by_cases hk : key = true
  · simp [hk] at h
    rw [h]
  · simp [hk] at h

/-- C2 (amended): every network call `process_image` performs is made with the
fixed per-provider timeout `CONFIG['RESPONSE_TIMEOUT']` — the deadline handed
to `requests.post` never depends on the time already consumed by earlier
variants, and no variant is ever skipped because of elapsed time (a variant is
skipped only when its API key is missing, or not reached because the earlier
variant returned a truthy result). -/
theorem fixed_timeout_every_call (gKey oKey : Bool)
    (gResp oResp : ProviderResponse) (c : ProviderCall)
    (h : c ∈ (processImage gKey oKey gResp oResp).2) :
    c.timeout = RESPONSE_TIMEOUT := by
  simp only [processImage] at h
  split at h
  · exact adapterCalls_timeout h
  · split at h <;>
    · simp only [List.mem_append] at h
      rcases h with h | h <;> exact adapterCalls_timeout h

/-- Witness for `fixed_timeout_every_call`: in a run where the Gemini call
fails (for instance by exhausting the whole 2.0-second budget), the OpenAI
call is still performed, and with the full fixed timeout. -/
theorem fixed_timeout_every_call_witness :
    (⟨"openai", RESPONSE_TIMEOUT⟩ : ProviderCall) ∈ (processImage true true .err .err).2
    ∧ (⟨"openai", RESPONSE_TIMEOUT⟩ : ProviderCall).timeout = RESPONSE_TIMEOUT :=
  ⟨by decide, fixed_timeout_every_call true true .err .err _ (by decide)⟩

/-- C2 (counterexample): in the run where the Gemini attempt fails — e.g. by
timing out after consuming the entire 2.0-second global budget, so that the
remaining budget is zero — OpenAI is not skipped: it is invoked, and with the
full fixed 2.0-second timeout rather than the zero remaining budget. -/
theorem fixed_timeout_counterexample :
    (processImage true true .err .err).2
      = [⟨"gemini", RESPONSE_TIMEOUT⟩, ⟨"openai", RESPONSE_TIMEOUT⟩]
    ∧ RESPONSE_TIMEOUT ≠ 0 :=
  ⟨rfl, by decide⟩

/-- C5 (amended): providers are attempted strictly in the order Gemini then
OpenAI; when Gemini's extracted result is truthy (any non-empty parsed
document, in particular one with all seven fields null), it is returned with
the `gemini` label and OpenAI is never invoked; when Gemini's result is falsy
(failure, unparseable text, or a parsed *empty* document — Python's
`if result:`), OpenAI is attempted before the request fails. -/
theorem provider_priority (oKey : Bool) (gResp oResp : ProviderResponse) :
    (truthyOpt (extractWith true gResp) = true →
      (processImage true oKey gResp oResp).1 = (extractWith true gResp, "gemini")
      ∧ (processImage true oKey gResp oResp).2 = [⟨"gemini", RESPONSE_TIMEOUT⟩])
    ∧ (truthyOpt (extractWith true gResp) = false →
      (processImage true true gResp oResp).2
        = [⟨"gemini", RESPONSE_TIMEOUT⟩, ⟨"openai", RESPONSE_TIMEOUT⟩]) := by
  constructor
  · intro h
    constructor <;> simp [processImage, adapterCalls, h]
  · intro h
    by_cases ho : truthyOpt (extractWith true oResp) = true <;>
      simp [processImage, adapterCalls, h, ho]

/-- Witness for `provider_priority`: a truthy Gemini result is returned with
no OpenAI call; a failed Gemini attempt is followed by an OpenAI call. -/
theorem provider_priority_witness :
    (processImage true true (.ok fooText) .err).1 = (extractWith true (.ok fooText), "gemini")
    ∧ (processImage true true .err .err).2
        = [⟨"gemini", RESPONSE_TIMEOUT⟩, ⟨"openai", RESPONSE_TIMEOUT⟩] :=
  ⟨((provider_priority true (.ok fooText) .err).1 rfl).1,
   (provider_priority true .err .err).2 rfl⟩

/-- C5 (counterexample): when Gemini's text is the parseable empty document
`\x7b\x7d`, its result parses successfully — yet Python's `if result:` treats
the empty dict as false, so OpenAI *is* invoked and the Gemini result is not
returned: the claim's "for every parseable result" fails at the empty
document. -/
theorem provider_priority_counterexample :
    extractWith true (.ok emptyObjText) = some (.obj [])
    ∧ (processImage true true (.ok emptyObjText) .err).2
        = [⟨"gemini", RESPONSE_TIMEOUT⟩, ⟨"openai", RESPONSE_TIMEOUT⟩]
    ∧ (processImage true true (.ok emptyObjText) .err).1 = (none, "failed") :=
  ⟨rfl, rfl, rfl⟩

/-- C3 (amended): no projection onto the seven-key schema exists in the code:
whatever document the provider path parses is returned to the caller as the
`data` field verbatim and appended to the user's ledger verbatim — unknown
keys included, nothing discarded. -/
theorem verbatim_document_returned (gKey oKey : Bool)
    (gResp oResp : ProviderResponse) (uid ts : String) (fs : Store) (j : Json)
    (h : (processImage gKey oKey gResp oResp).1.1 = some j) :
    (extractShotData true false gKey oKey gResp oResp (some uid) true ts fs).1
        = .bare (successBody (.str (shotId uid ts)) j
            (processImage gKey oKey gResp oResp).1.2 true)
    ∧ getUserShots uid (extractShotData true false gKey oKey gResp oResp
          (some uid) true ts fs).2
        = getUserShots uid fs ++ [⟨shotId uid ts, uid, ts, j⟩] := by
  have ht := processImage_some_truthy h
  constructor <;> simp [extractShotData, h, ht, saveShot, getUserShots]

/-- Witness for `verbatim_document_returned`: the document with the unknown
key `foo` reaches the response body unchanged. -/
theorem verbatim_document_returned_witness :
    (extractShotData true false true true (.ok fooText) .err (some "u1") true
        "t0" emptyStore).1
      = .bare (successBody (.str (shotId "u1" "t0")) (.obj [("foo", .num 1)])
          (processImage true true (.ok fooText) .err).1.2 true) :=
  (verbatim_document_returned true true (.ok fooText) .err "u1" "t0" emptyStore
    (.obj [("foo", .num 1)]) rfl).1

/-- C3 (counterexample): a provider document whose only key is `foo` — not one
of the seven ShotMetrics keys and not `units` — is returned as the metrics
unchanged: the claim that every other key is discarded is false of the code. -/
theorem schema_projection_counterexample :
    (processImage true true (.ok fooText) .err).1.1 = some (.obj [("foo", .num 1)])
    ∧ jsonObjKeys (.obj [("foo", .num 1)]) = ["foo"]
    ∧ "foo" ∉ sevenKeys
    ∧ "foo" ≠ "units" :=
  ⟨rfl, rfl, by decide, by decide⟩

/-- C7 (amended): a storage failure on the ledger write after a successful
extraction is caught by the handler's catch-all `except`, which returns a
bare 500 error body: the already-computed metrics are discarded — the caller
receives no `data` field — and the file system is left unchanged. -/
theorem storage_failure_discards_metrics (gKey oKey : Bool)
    (gResp oResp : ProviderResponse) (uid ts : String) (fs : Store) (j : Json)
    (h : (processImage gKey oKey gResp oResp).1.1 = some j) :
    (extractShotData true false gKey oKey gResp oResp (some uid) false ts fs).1
        = .withStatus [("error", .str "storage write failed")] 500
    ∧ respData (extractShotData true false gKey oKey gResp oResp
          (some uid) false ts fs).1 = none
    ∧ (extractShotData true false gKey oKey gResp oResp (some uid) false ts fs).2 = fs := by
  have ht := processImage_some_truthy h
  refine ⟨?_, ?_, ?_⟩ <;> simp [extractShotData, h, ht, respData, bodyOf]

/-- Witness for `storage_failure_discards_metrics`. -/
theorem storage_failure_discards_metrics_witness :
    respData (extractShotData true false true true (.ok fooText) .err
        (some "u1") false "t0" emptyStore).1 = none :=
  (storage_failure_discards_metrics true true (.ok fooText) .err "u1" "t0"
    emptyStore (.obj [("foo", .num 1)]) rfl).2.1

/-- C7 (counterexample): extraction succeeds (`ball_speed: 1`), the ledger
write fails, and the caller receives the bare 500 error with no metrics: the
claim that the metrics still reach the caller is false of the code. -/
theorem storage_failure_counterexample :
    ((processImage true true (.ok ballText) .err).1.1).isSome = true
    ∧ (extractShotData true false true true (.ok ballText) .err (some "u1")
        false "t0" emptyStore).1
        = .withStatus [("error", .str "storage write failed")] 500
    ∧ respData (extractShotData true false true true (.ok ballText) .err
        (some "u1") false "t0" emptyStore).1 = none :=
  ⟨rfl, rfl, rfl⟩

/-- C8: appending a shot for an identity and then listing that identity's
shots yields the previous sequence extended by exactly one record whose
metrics equal the appended document; and listing an identity with no ledger
file returns the empty sequence (never a failure — the model is total). -/
theorem ledger_append_then_list :
    (∀ (uid : String) (j : Json) (ts : String) (fs : Store),
      getUserShots uid (saveShot uid j ts fs).2
        = getUserShots uid fs ++ [⟨shotId uid ts, uid, ts, j⟩])
    ∧ (∀ (uid : String) (fs : Store), fs uid = none → getUserShots uid fs = []) := by
  constructor
  · intro uid j ts fs
    simp [saveShot, getUserShots]
  · intro uid fs h
    simp [getUserShots, h]

/-- Witness for `ledger_append_then_list`: the spec's `u1`/`u2` example. -/
theorem ledger_append_then_list_witness :
    getUserShots "u1" (saveShot "u1" .null "t0" emptyStore).2
      = getUserShots "u1" emptyStore ++ [⟨shotId "u1" "t0", "u1", "t0", .null⟩]
    ∧ getUserShots "u2" emptyStore = [] :=
  ⟨ledger_append_then_list.1 "u1" .null "t0" emptyStore,
   ledger_append_then_list.2 "u2" emptyStore rfl⟩

/-- C10: on an admitted request, the wrapped `/extract` response carries a
`rate_limit` field exactly when the handler returned a `(body, status)`
tuple: the bare success response passes through the decorator unchanged and
carries none, while the tuple-returning error responses have it merged in. -/
theorem rate_limit_field_iff_tuple (hasImage filenameEmpty gKey oKey : Bool)
    (gResp oResp : ProviderResponse) (userId : Option String) (writeOk : Bool)
    (ts : String) (fs : Store) (limit : Nat) (now : PyDateTime)
    (st : Option Nat) (h : redisGetCount st < limit) :
    hasRateLimit (rateLimitRun limit now st fs (fun _ =>
        extractShotData hasImage filenameEmpty gKey oKey gResp oResp userId
          writeOk ts fs)).1
      = FlaskResp.isTuple (extractShotData hasImage filenameEmpty gKey oKey
          gResp oResp userId writeOk ts fs).1 := by
  have hn : ¬ limit ≤ st.getD 0 := by
    simpa [redisGetCount] using Nat.not_le.mpr h
  simp only [rateLimitRun, redisGetCount, hn, if_false, ite_false]
  exact hasRateLimit_rlMerge _ _ _
    (extractShotData_no_rl hasImage filenameEmpty gKey oKey gResp oResp userId
      writeOk ts fs)

/-- Witness for `rate_limit_field_iff_tuple` on a concrete admitted request. -/
theorem rate_limit_field_iff_tuple_witness :
    hasRateLimit (rateLimitRun 20 ⟨0, 0, 0, 0, 0⟩ none emptyStore (fun _ =>
        extractShotData false false true true .err .err none true "t0"
          emptyStore)).1
      = FlaskResp.isTuple (extractShotData false false true true .err .err
          none true "t0" emptyStore).1 :=
  rate_limit_field_iff_tuple false false true true .err .err none true "t0"
    emptyStore 20 ⟨0, 0, 0, 0, 0⟩ none (by decide)

/-- Structural characterization of the regex span: when `extractBraced`
returns a substring, it is a contiguous span of the text that starts with the
text's first opening brace (nothing before it contains one) and ends with the
text's last closing brace (nothing after it contains one). -/
theorem extractBraced_spec {cs sub : List Char} (h : extractBraced cs = some sub) :
    sub.head? = some braceOpen ∧ sub.getLast? = some braceClose
    ∧ ∃ pre post, cs = pre ++ sub ++ post ∧ braceOpen ∉ pre ∧ braceClose ∉ post := by
  simp only [extractBraced] at h
  set rest := cs.dropWhile (fun c => c != braceOpen) with hrestdef
  set midRev := rest.reverse.dropWhile (fun c => c != braceClose) with hmrdef
  by_cases he : midRev.reverse.isEmpty
  · rw [if_pos he] at h
    cases h
  · rw [if_neg he] at h
    have hsub : midRev.reverse = sub := Option.some.inj h
    set post := (rest.reverse.takeWhile (fun c => c != braceClose)).reverse with hpostdef
    have hrest2 : rest = midRev.reverse ++ post := by
      rw [hmrdef, hpostdef, ← List.reverse_append, List.takeWhile_append_dropWhile,
        List.reverse_reverse]
    set pre := cs.takeWhile (fun c => c != braceOpen) with hpredef
    have hcs : cs = pre ++ rest :=
      (List.takeWhile_append_dropWhile (p := fun c => c != braceOpen) (l := cs)).symm
    have hpre : braceOpen ∉ pre := by
      intro hm
      have h3 := List.mem_takeWhile_imp hm
      simp at h3
    have hpost : braceClose ∉ post := by
      intro hm
      have hm2 : braceClose ∈ rest.reverse.takeWhile (fun c => c != braceClose) := by
        rw [hpostdef] at hm
        exact List.mem_reverse.mp hm
      have h4 := List.mem_takeWhile_imp hm2
      simp at h4
    have hne : midRev.reverse ≠ [] := by
      intro hnil
      rw [hnil] at he
      simp at he
    obtain ⟨a, t, hat⟩ := List.exists_cons_of_ne_nil hne
    have hresthead : cs.dropWhile (fun c => c != braceOpen) = a :: (t ++ post) := by
      rw [← hrestdef, hrest2, hat]
      simp
    have hq1 := dropWhile_head_false hresthead
    have hopen : a = braceOpen := by
      simpa [bne] using hq1
    have hmrne : midRev ≠ [] := by
      intro hn
      rw [hn] at hat
      cases hat
    obtain ⟨b, t2, hbt⟩ := List.exists_cons_of_ne_nil hmrne
    have hmr2 : rest.reverse.dropWhile (fun c => c != braceClose) = b :: t2 := by
      rw [← hmrdef]
      exact hbt
    have hq2 := dropWhile_head_false hmr2
    have hclose : b = braceClose := by
      simpa [bne] using hq2
    refine ⟨?_, ?_, pre, post, ?_, hpre, hpost⟩
    · rw [← hsub, hat]
      simp [hopen]
    · rw [← hsub, List.getLast?_reverse, hbt]
      simp [hclose]
    · rw [hcs, hrest2, hsub]
      simp [List.append_assoc]

/-- C6 (amended): the extractor selects the span running from the first
opening brace of the provider text to its last closing brace (the
leftmost-longest match of `\x7b.*\x7d` under DOTALL) — not the first
syntactically balanced object-literal — and `json.loads` is applied to that
whole span; when no such span exists, and equally when the span fails to
parse, the adapter returns `None`, with no distinguished error reasons. -/
theorem braced_span_first_to_last (cs : List Char) :
    (extractBraced cs = none → textToJson cs = none)
    ∧ (∀ sub, extractBraced cs = some sub →
        textToJson cs = jsonLoads sub
        ∧ sub.head? = some braceOpen
        ∧ sub.getLast? = some braceClose
        ∧ ∃ pre post, cs = pre ++ sub ++ post
            ∧ braceOpen ∉ pre ∧ braceClose ∉ post) := by
  constructor
  · intro h
    simp [textToJson, h]
  · intro sub h
    obtain ⟨h1, h2, h3⟩ := extractBraced_spec h
    exact ⟨by simp [textToJson, h], h1, h2, h3⟩

/-- Witness for `braced_span_first_to_last` on the two-object text
`\x7b"a": 1\x7d and \x7b"b": 2\x7d`, whose selected span is the whole text. -/
theorem braced_span_first_to_last_witness :
    textToJson (aObjText ++ andBTail) = jsonLoads (aObjText ++ andBTail)
    ∧ (aObjText ++ andBTail).head? = some braceOpen
    ∧ (aObjText ++ andBTail).getLast? = some braceClose
    ∧ ∃ pre post, aObjText ++ andBTail = pre ++ (aObjText ++ andBTail) ++ post
        ∧ braceOpen ∉ pre ∧ braceClose ∉ post :=
  (braced_span_first_to_last (aObjText ++ andBTail)).2 (aObjText ++ andBTail)
    (by decide)

/-- C6 (counterexample): the text `\x7b"a": 1\x7d and \x7b"b": 2\x7d` opens
with the balanced, parseable object-literal `\x7b"a": 1\x7d`, which the claim
says `parse` locates and parses; the code instead matches from the first
opening brace to the *last* closing brace — the whole text — and
`json.loads` on that span fails, so the extraction yields `None` (and no
`ParseError` reason is ever produced: both failure modes are a bare `None`). -/
theorem braced_span_counterexample :
    (jsonLoads aObjText).isSome = true
    ∧ extractBraced (aObjText ++ andBTail) = some (aObjText ++ andBTail)
    ∧ textToJson (aObjText ++ andBTail) = none :=
  ⟨rfl, by decide, rfl⟩
